import Mathlib

/-!
Verification of the concurrent-interrupt core of the `concurrent_interrupts`
repository: a durable graph-execution engine that can suspend parallel
branches on human-in-the-loop interrupts, checkpoint, and resume.

The repository contributes the tool bodies (`src/src/agent.py`) and a test
suite (`src/tests/test_interrupts.py`) that pins down the engine semantics
(interrupt identity, partial resume, checkpoint reuse, reducer merging).
The engine itself is an external library, so it is modelled here from the
spec, constrained where the spec is ambiguous by the repository's own test
assertions (in particular the node execution counters).
-/

namespace ConcurrentInterrupts

/-- JSON-like values: models the Python values exchanged as interrupt
payloads and resume values (strings, booleans, dicts). -/
inductive Value where
  | str : String → Value
  | bool : Bool → Value
  | dict : List (String × Value) → Value

mutual

/-- Structural equality on values (Python `==` on these shapes). -/
def Value.beq : Value → Value → Bool
  | .str a, .str b => a == b
  | .bool a, .bool b => a == b
  | .dict a, .dict b => Value.beqEntries a b
  | _, _ => false

/-- Structural equality on dict entry lists. -/
def Value.beqEntries : List (String × Value) → List (String × Value) → Bool
  | [], [] => true
  | (k1, v1) :: t1, (k2, v2) :: t2 =>
    k1 == k2 && Value.beq v1 v2 && Value.beqEntries t1 t2
  | _, _ => false

end

mutual

theorem Value.beq_refl : ∀ v : Value, Value.beq v v = true
  | .str s => by simp [Value.beq]
  | .bool b => by simp [Value.beq]
  | .dict l => by simp [Value.beq, Value.beqEntries_refl l]

theorem Value.beqEntries_refl :
    ∀ l : List (String × Value), Value.beqEntries l l = true
  | [] => by simp [Value.beqEntries]
  | (k, v) :: t => by
    simp [Value.beqEntries, Value.beq_refl v, Value.beqEntries_refl t]

end

mutual

theorem Value.eq_of_beq : ∀ a b : Value, Value.beq a b = true → a = b
  | .str _, .str _, h => by simp [Value.beq] at h; simp [h]
  | .str _, .bool _, h => by simp [Value.beq] at h
  | .str _, .dict _, h => by simp [Value.beq] at h
  | .bool _, .str _, h => by simp [Value.beq] at h
  | .bool _, .bool _, h => by simp [Value.beq] at h; simp [h]
  | .bool _, .dict _, h => by simp [Value.beq] at h
  | .dict _, .str _, h => by simp [Value.beq] at h
  | .dict _, .bool _, h => by simp [Value.beq] at h
  | .dict a, .dict b, h => by
    simp only [Value.beq] at h
    rw [Value.eq_of_beqEntries a b h]

theorem Value.eq_of_beqEntries :
    ∀ a b : List (String × Value), Value.beqEntries a b = true → a = b
  | [], [], _ => rfl
  | [], _ :: _, h => by simp [Value.beqEntries] at h
  | _ :: _, [], h => by simp [Value.beqEntries] at h
  | (k1, v1) :: t1, (k2, v2) :: t2, h => by
    simp only [Value.beqEntries, Bool.and_eq_true, beq_iff_eq] at h
    rw [h.1.1, Value.eq_of_beq v1 v2 h.1.2, Value.eq_of_beqEntries t1 t2 h.2]

end

instance : BEq Value := ⟨Value.beq⟩

instance : DecidableEq Value := fun a b =>
  decidable_of_iff (Value.beq a b = true)
    ⟨Value.eq_of_beq a b, fun h => h ▸ Value.beq_refl a⟩

/-- Lookup of a key in a dict-shaped value's entry list (Python `dict.get`
with a default). -/
def lookupD (kvs : List (String × Value)) (k : String) (dflt : Value) : Value :=
  match kvs.lookup k with
  | some v => v
  | none => dflt

/-- Python `str()` conversion as used in f-strings; resume values in this
repository are strings, other cases are rendered from their structure. -/
def valueToStr : Value → String
  | .str s => s
  | .bool b => if b then "True" else "False"
  | .dict _ => "<dict>"

/-- A task body: straight-line code that may call the suspend primitive
(`interrupt(...)` in the source) any number of times and finally returns a
result.  Each `suspend` carries the payload surfaced to the human and a
continuation receiving the resume value. -/
inductive TaskM (α : Type) where
  | done : α → TaskM α
  | suspend : Value → (Value → TaskM α) → TaskM α

/-- An interrupt id.  Modelled from the spec: ids are deterministically
derived from the task identity and the suspend call-site occurrence count
within the task — never from random generation. -/
abbrev InterruptId := String × Nat

/-- An interrupt record surfaced to the caller: stable id plus the payload
raised by the suspend call. -/
structure Interrupt where
  id : InterruptId
  value : Value
  deriving DecidableEq

/-- Outcome of one task execution within a superstep: either it completed
with its writes, or it blocked on a suspend call with an interrupt record. -/
inductive TaskOutcome (α : Type) where
  | completed : α → TaskOutcome α
  | interrupted : Interrupt → TaskOutcome α
  deriving DecidableEq

/-- The resume store: interrupt id → resume value pairs supplied so far. -/
abbrev ResumeStore := List (InterruptId × Value)

/-- Modelled from the spec: the Interrupt Registry's execution of one task
body.  The body runs from its start; each suspend call site, reached in
order, is numbered by its occurrence count `occ`.  If the resume store holds
a value for the derived id `(tid, occ)`, `suspend` returns it immediately;
otherwise the task blocks and its outcome is `interrupted` with that
deterministically derived id. -/
def runTaskFrom (resumes : ResumeStore) (tid : String) (occ : Nat) :
    TaskM α → TaskOutcome α
  | .done a => .completed a
  | .suspend payload k =>
    match resumes.lookup (tid, occ) with
    | some v => runTaskFrom resumes tid (occ + 1) (k v)
    | none => .interrupted ⟨(tid, occ), payload⟩

/-- Modelled from the spec: run a task from its start (occurrence count 0). -/
def runTask (resumes : ResumeStore) (tid : String) (body : TaskM α) :
    TaskOutcome α :=
  runTaskFrom resumes tid 0 body

/-- Substring test on character lists (`needle ⊑ hay`), used to embed
Python's `"dangerous" in state["item"]`. -/
def startsWith : List Char → List Char → Bool
  | [], _ => true
  | _ :: _, [] => false
  | c :: cs, d :: ds => c == d && startsWith cs ds

/-- Whether `needle` occurs as a contiguous run inside `hay`. -/
def hasSub (needle : List Char) : List Char → Bool
  | [] => startsWith needle []
  | c :: cs => startsWith needle (c :: cs) || hasSub needle cs

/-- Python's `needle in hay` substring containment on strings. -/
def strContains (hay needle : String) : Bool :=
  hasSub needle.data hay.data

/-! ## The test graph (`src/tests/test_interrupts.py`)

State: `{items: list[str], processed: Annotated[list[str], operator.add]}`;
`entry` writes nothing, `send_to_map` fans out one `map_node` task per item,
`map_node` interrupts on items containing `"dangerous"`. -/

/-- `map_node` from the tests: increments the execution counter (modelled in
the runner), interrupts with payload `{"processing": item}` on dangerous
items and returns `["processed_{value}"]`, otherwise returns
`["processed_{item}_auto"]`. -/
def map_node (item : String) : TaskM (List String) :=
  if strContains item "dangerous" then
    .suspend (.dict [("processing", .str item)]) fun v =>
      .done [s!"processed_{valueToStr v}"]
  else
    .done [s!"processed_{item}_auto"]

/-- Task identity for a fan-out `Send("map_node", {"item": item})`: derived
from the target node and the index within the fan-out list, so identical
fan-outs across resumes address the same task slot. -/
def sendTaskId (idx : Nat) : String := s!"map_node:{idx}"

/-- `send_to_map` from the tests: one `map_node` task per item, in item
order, each bound to its input item and its fan-out identity. -/
def send_to_map (items : List String) : List (String × String) :=
  (items.enum).map fun p => (sendTaskId p.1, p.2)

/-! ## The engine (superstep runner, checkpointing, resume protocol)

Modelled from the spec: the engine itself is the external library consumed
by this repository, so its behavior is reconstructed from §4–§8 of the
spec and pinned by the repository's test assertions. -/

/-- Status of a task as recorded in a checkpoint: completed with its
write-set, or interrupted with its interrupt record. -/
inductive TaskStatus where
  | completed : List String → TaskStatus
  | interrupted : Interrupt → TaskStatus
  deriving DecidableEq

/-- One task of a suspended superstep as persisted in a checkpoint:
identity, the bound `Send` input, and its status. -/
structure SavedTask where
  tid : String
  input : String
  status : TaskStatus
  deriving DecidableEq

/-- Modelled from the spec: a checkpoint of a superstep blocked on
interrupts — the task set with per-task writes or interrupt records, plus
the resume values consumed so far (per derived call-site id). -/
structure Checkpoint where
  tasks : List SavedTask
  resumeStore : ResumeStore
  deriving DecidableEq

/-- The per-thread checkpoint store: `none` means fresh thread / run done. -/
abbrev Store := Option Checkpoint

/-- The test suite's `node_counter`: executions of `entry` and `map_node`. -/
structure Counters where
  entry : Nat
  map : Nat
  deriving DecidableEq, Repr

/-- Errors of the resume protocol. -/
inductive ResumeError where
  | noPendingInterrupt : ResumeError
  | unknownInterruptIds : List InterruptId → ResumeError
  deriving DecidableEq

/-- What one `graph.invoke` call surfaces to the caller: the merged
`processed` channel (once the run completes), the `__interrupt__` list, and
any resume-protocol error. -/
structure InvokeResult where
  processed : List String
  interrupts : List Interrupt
  error : Option ResumeError
  deriving DecidableEq

/-- Convert a task execution outcome into its checkpointed status. -/
def outcomeToStatus : TaskOutcome (List String) → TaskStatus
  | .completed w => .completed w
  | .interrupted i => .interrupted i

/-- The interrupt records of the interrupted tasks, in task order. -/
def pendingInterrupts (tasks : List SavedTask) : List Interrupt :=
  tasks.filterMap fun t =>
    match t.status with
    | .interrupted i => some i
    | .completed _ => none

/-- Reducer merge (`operator.add` on lists): concatenate the completed
tasks' writes in the frontier's deterministic enumeration order. -/
def mergedWrites (tasks : List SavedTask) : List String :=
  tasks.foldr
    (fun t acc =>
      match t.status with
      | .completed w => w ++ acc
      | .interrupted _ => acc)
    []

/-- The caller's input to `graph.invoke`: a fresh initial state, or a
`Command(resume=resume_map)`. -/
inductive Input where
  | fresh : List String → Input
  | command : ResumeStore → Input

/-- Modelled from the spec: a fresh invocation.  The `entry` node runs once
and writes nothing; `send_to_map` fans out one `map_node` task per item; all
frontier tasks execute (each incrementing the execution counter); if any
task suspends, a checkpoint is persisted recording completed tasks' writes
and interrupted tasks' interrupt records, and the interrupts are surfaced;
otherwise the writes are merged by the reducer and the run completes. -/
def invokeFresh (items : List String) (c : Counters) :
    InvokeResult × Store × Counters :=
  let c1 : Counters := { c with entry := c.entry + 1 }
  let frontier := send_to_map items
  let tasks := frontier.map fun t =>
    SavedTask.mk t.1 t.2 (outcomeToStatus (runTask [] t.1 (map_node t.2)))
  let c2 : Counters := { c1 with map := c1.map + frontier.length }
  let pend := pendingInterrupts tasks
  if pend.isEmpty then
    (⟨mergedWrites tasks, [], none⟩, none, c2)
  else
    (⟨[], pend, none⟩, some ⟨tasks, []⟩, c2)

/-- Modelled from the spec: one resume step over a checkpointed task.
Completed tasks' writes are reused verbatim (the node is not re-invoked).
An interrupted task is re-invoked from its start only when the resume map
supplies a value for its pending interrupt id (as pinned by the tests'
execution counters); its suspend call sites then short-circuit through the
accumulated resume store.  Returns the new status and the number of body
re-invocations (0 or 1). -/
def resumeTask (resumeMap newStore : ResumeStore) (t : SavedTask) :
    SavedTask × Nat :=
  match t.status with
  | .completed _ => (t, 0)
  | .interrupted i =>
    if (resumeMap.lookup i.id).isSome then
      ({ t with status := outcomeToStatus (runTask newStore t.tid (map_node t.input)) }, 1)
    else
      (t, 0)

/-- Modelled from the spec: the resume protocol.  Fails with
`noPendingInterrupt` when nothing is outstanding; reports ids not among the
outstanding interrupts as `unknownInterruptIds` while still applying the
matched resume values (partial validity); re-invokes exactly the interrupted
tasks with supplied values; interrupts with no supplied value re-surface
identically; when everything completed, merges writes by the reducer. -/
def invokeResume (resumeMap : ResumeStore) (store : Store) (c : Counters) :
    InvokeResult × Store × Counters :=
  match store with
  | none => (⟨[], [], some .noPendingInterrupt⟩, none, c)
  | some cp =>
    let outstanding := (pendingInterrupts cp.tasks).map (·.id)
    let unknown := (resumeMap.map (·.1)).filter fun id => ! outstanding.contains id
    let newStore := cp.resumeStore ++ resumeMap
    let stepped := cp.tasks.map (resumeTask resumeMap newStore)
    let tasks := stepped.map (·.1)
    let c1 : Counters := { c with map := c.map + (stepped.map (·.2)).sum }
    let err : Option ResumeError :=
      if unknown.isEmpty then none else some (.unknownInterruptIds unknown)
    let pend := pendingInterrupts tasks
    if pend.isEmpty then
      (⟨mergedWrites tasks, [], err⟩, none, c1)
    else
      (⟨[], pend, err⟩, some ⟨tasks, newStore⟩, c1)

/-- `graph.invoke` on a thread: dispatch on fresh input vs resume command. -/
def invoke : Input → Store → Counters → InvokeResult × Store × Counters
  | .fresh items, _, c => invokeFresh items c
  | .command resumeMap, store, c => invokeResume resumeMap store c

/-- `graph.get_state`: read-only accessor for the pending interrupts of the
thread's latest checkpoint; returns the interrupts and the unchanged store. -/
def get_state (store : Store) : List Interrupt × Store :=
  match store with
  | none => ([], none)
  | some cp => (pendingInterrupts cp.tasks, some cp)

/-- The items of the test scenario. -/
def testItems : List String := ["item1", "dangerous_item1", "dangerous_item2"]

/-- Counters at the start of a test. -/
def counters0 : Counters := ⟨0, 0⟩

/-! ## Generic frontier execution (for the superstep-level properties) -/

/-- Run every task of a frontier (a list of task identities with bodies)
under one resume store; tasks are isolated, so the outcome list is the
per-task outcome in enumeration order. -/
def runFrontier (resumes : ResumeStore)
    (tasks : List (String × TaskM (List String))) :
    List (TaskOutcome (List String)) :=
  tasks.map fun t => runTask resumes t.1 t.2

/-- The interrupts surfaced to the caller from a list of task outcomes. -/
def surfacedInterrupts (outcomes : List (TaskOutcome (List String))) :
    List Interrupt :=
  outcomes.filterMap fun o =>
    match o with
    | .interrupted i => some i
    | .completed _ => none

/-! ## The tools (`src/src/agent.py`) -/

/-- `HumanInterruptConfig` (agent.py): what actions the human may take. -/
structure HumanInterruptConfig where
  allow_ignore : Bool := true
  allow_respond : Bool := false
  allow_edit : Bool := true
  allow_accept : Bool := true
  deriving DecidableEq

/-- `ActionRequest` (agent.py): tool action name and arguments. -/
structure ActionRequest where
  action : String
  args : List (String × Value)
  deriving DecidableEq

/-- `HumanInterrupt` (agent.py): the complete interrupt request. -/
structure HumanInterrupt where
  id : String
  action_request : ActionRequest
  config : HumanInterruptConfig
  description : String
  deriving DecidableEq

/-- Pydantic `model_dump` of `HumanInterruptConfig` as a dict value. -/
def HumanInterruptConfig.model_dump (c : HumanInterruptConfig) : Value :=
  .dict [("allow_ignore", .bool c.allow_ignore),
         ("allow_respond", .bool c.allow_respond),
         ("allow_edit", .bool c.allow_edit),
         ("allow_accept", .bool c.allow_accept)]

/-- Pydantic `model_dump` of `ActionRequest` as a dict value. -/
def ActionRequest.model_dump (r : ActionRequest) : Value :=
  .dict [("action", .str r.action), ("args", .dict r.args)]

/-- Pydantic `model_dump` of `HumanInterrupt` as a dict value. -/
def HumanInterrupt.model_dump (h : HumanInterrupt) : Value :=
  .dict [("id", .str h.id),
         ("action_request", h.action_request.model_dump),
         ("config", h.config.model_dump),
         ("description", .str h.description)]

/-- The `HumanInterrupt` built by `fast_analysis_tool` (agent.py lines
248-262); `interrupt_id` is the `uuid.uuid4()` value, taken as a parameter
since it is drawn at random per raise. -/
def fastRequest (interrupt_id data : String) : HumanInterrupt :=
  ⟨interrupt_id,
   ⟨"fast_analysis", [("data", .str data)]⟩,
   ⟨true, false, true, true⟩,
   s!"Fast analysis tool needs approval to complete analysis of: {data}."⟩

/-- Response handling of `fast_analysis_tool` (agent.py lines 269-282):
a dict response whose `"type"` (default `"accept"`) equals `"ignore"`
cancels; every other response — dict or not — approves. -/
def fastHandleResponse (data : String) (response : Value) : String :=
  match response with
  | .dict kvs =>
    if lookupD kvs "type" (.str "accept") == .str "ignore" then
      s!"Fast analysis cancelled for: {data}"
    else
      s!"Fast analysis completed: {data} - Decision: approved"
  | _ => s!"Fast analysis completed: {data} - Decision: approved"

/-- `fast_analysis_tool` (agent.py): suspend with the dumped request, then
handle the resume value. -/
def fast_analysis_tool (interrupt_id data : String) : TaskM String :=
  .suspend (fastRequest interrupt_id data).model_dump fun response =>
    .done (fastHandleResponse data response)

/-- The `HumanInterrupt` built by `slow_processing_tool` (agent.py lines
344-358). -/
def slowRequest (interrupt_id data mode : String) : HumanInterrupt :=
  ⟨interrupt_id,
   ⟨"slow_processing", [("data", .str data), ("mode", .str mode)]⟩,
   ⟨true, false, true, true⟩,
   s!"Slow processing tool needs approval for {mode} processing of: {data}."⟩

/-- Response handling of `slow_processing_tool` (agent.py lines 365-383):
`"ignore"` cancels; `"edit"` takes `response.get("args", {}).get("mode",
mode)` — raising `AttributeError` (modelled as `Except.error`) when the
`"args"` entry is present but not a dict; everything else approves with the
original mode. -/
def slowHandleResponse (data mode : String) (response : Value) :
    Except String String :=
  match response with
  | .dict kvs =>
    let rt := lookupD kvs "type" (.str "accept")
    if rt == .str "ignore" then
      .ok s!"Slow processing cancelled for: {data}"
    else if rt == .str "edit" then
      match lookupD kvs "args" (.dict []) with
      | .dict akvs =>
        let new_mode := valueToStr (lookupD akvs "mode" (.str mode))
        .ok s!"Slow processing completed: {data} ({new_mode}) - Decision: modified"
      | _ => .error "AttributeError"
    else
      .ok s!"Slow processing completed: {data} ({mode}) - Decision: approved"
  | _ => .ok s!"Slow processing completed: {data} ({mode}) - Decision: approved"

/-- `slow_processing_tool` (agent.py): suspend with the dumped request, then
handle the resume value. -/
def slow_processing_tool (interrupt_id data mode : String) :
    TaskM (Except String String) :=
  .suspend (slowRequest interrupt_id data mode).model_dump fun response =>
    .done (slowHandleResponse data mode response)

/-- The payload shape named by the spec for tool suspend calls:
`\x7bid, action_request:\x7baction, args\x7d, config:\x7ballow_ignore,
allow_respond, allow_edit, allow_accept\x7d, description\x7d`. -/
def isHumanInterruptShape : Value → Bool
  | .dict kvs =>
    (match kvs.lookup "id" with
     | some (.str _) => true
     | _ => false) &&
    (match kvs.lookup "action_request" with
     | some (.dict akvs) =>
       (match akvs.lookup "action" with
        | some (.str _) => true
        | _ => false) &&
       (match akvs.lookup "args" with
        | some (.dict _) => true
        | _ => false)
     | _ => false) &&
    (match kvs.lookup "config" with
     | some (.dict ckvs) =>
       (match ckvs.lookup "allow_ignore" with
        | some (.bool _) => true
        | _ => false) &&
       (match ckvs.lookup "allow_respond" with
        | some (.bool _) => true
        | _ => false) &&
       (match ckvs.lookup "allow_edit" with
        | some (.bool _) => true
        | _ => false) &&
       (match ckvs.lookup "allow_accept" with
        | some (.bool _) => true
        | _ => false)
     | _ => false) &&
    (match kvs.lookup "description" with
     | some (.str _) => true
     | _ => false)
  | _ => false

instance : Inhabited Interrupt := ⟨⟨("", 0), .str ""⟩⟩

/-! ## The test scenario pipeline -/

/-- First invocation of the test scenario on a fresh thread:
`graph.invoke({"items": ["item1", "dangerous_item1", "dangerous_item2"]})`. -/
def run0 : InvokeResult × Store × Counters :=
  invoke (.fresh testItems) none counters0

/-- Resume supplying the string `v` for the k-th currently pending
interrupt of the previous invocation's result (the tests build their resume
maps from `interrupts[k].id`). -/
def resumeNth (prev : InvokeResult × Store × Counters) (k : Nat) (v : String) :
    InvokeResult × Store × Counters :=
  invoke (.command [((prev.1.interrupts.getD k default).id, .str v)])
    prev.2.1 prev.2.2

/-- Resume supplying values for both pending interrupts in one call
(`resume_map = {i.id: ... for i in interrupts}`). -/
def resumeBoth (prev : InvokeResult × Store × Counters) (v1 v2 : String) :
    InvokeResult × Store × Counters :=
  invoke (.command [((prev.1.interrupts.getD 0 default).id, .str v1),
                    ((prev.1.interrupts.getD 1 default).id, .str v2)])
    prev.2.1 prev.2.2

/-! ## Theorems -/

/-- C2: with items `["item1", "dangerous_item1", "dangerous_item2"]`, only
the non-dangerous item completes; the first invocation surfaces exactly 2
interrupts; resuming exactly one of the two ids leaves exactly 1
outstanding interrupt, re-surfaced unchanged, without re-running completed
work (the execution counter advances by exactly the one resumed body); and
after both interrupts are resumed — in two sequential calls or one combined
call — the merged `processed` list has exactly the 3 entries
`processed_item1_auto` plus one entry per dangerous item reflecting the
resume value supplied for it. -/
theorem one_id_resume_preserves_remaining_interrupt (v1 v2 : String) :
    run0.1.interrupts.length = 2 ∧
    (resumeNth run0 0 v1).1.interrupts.length = 1 ∧
    (resumeNth run0 0 v1).1.interrupts = [run0.1.interrupts.getD 1 default] ∧
    (resumeNth run0 1 v2).1.interrupts = [run0.1.interrupts.getD 0 default] ∧
    (resumeNth run0 0 v1).2.2 = ⟨run0.2.2.entry, run0.2.2.map + 1⟩ ∧
    (resumeNth (resumeNth run0 0 v1) 0 v2).1.processed =
      ["processed_item1_auto", s!"processed_{v1}", s!"processed_{v2}"] ∧
    (resumeNth (resumeNth run0 1 v2) 0 v1).1.processed =
      ["processed_item1_auto", s!"processed_{v1}", s!"processed_{v2}"] ∧
    (resumeBoth run0 v1 v2).1.processed =
      ["processed_item1_auto", s!"processed_{v1}", s!"processed_{v2}"] := by
  refine ⟨rfl, rfl, rfl, rfl, rfl, ?_, ?_, ?_⟩ <;> rfl

/-- C4: the scenario fans out to 3 branches of which 2 suspend; a single
resume invocation supplying values for both outstanding interrupt ids
completes the graph in that one further invocation, producing 3 final
processed results and zero outstanding interrupts (the thread's checkpoint
store is cleared: the run is done). -/
theorem simultaneous_resume_completes_in_one_invocation (v1 v2 : String) :
    run0.1.interrupts.length = 2 ∧
    (resumeBoth run0 v1 v2).1.processed.length = 3 ∧
    (resumeBoth run0 v1 v2).1.interrupts = [] ∧
    (resumeBoth run0 v1 v2).2.1 = none := by
  exact ⟨rfl, rfl, rfl, rfl⟩

/-- C6: in the two-dangerous-items scenario, resuming the first interrupt
first (with `v1`) and then the remaining one (with `v2`) yields a final
merged `processed` list that is a permutation of — same set of values as —
the one obtained by resuming the second interrupt first: the reducer merge
is order-independent up to entry order. -/
theorem reducer_merge_order_independent (v1 v2 : String) :
    ((resumeNth (resumeNth run0 0 v1) 0 v2).1.processed).Perm
      ((resumeNth (resumeNth run0 1 v2) 0 v1).1.processed) := by
  have h : (resumeNth (resumeNth run0 0 v1) 0 v2).1.processed =
      (resumeNth (resumeNth run0 1 v2) 0 v1).1.processed := rfl
  rw [h]

/-- An interrupt id that never occurs among the scenario's outstanding
interrupts. -/
def bogusId : InterruptId := ("no_such_task", 0)

/-- Resume of the scenario supplying a value for the first outstanding
interrupt together with an unmatched extra id. -/
def resumeWithBogus (v : String) : InvokeResult × Store × Counters :=
  invoke (.command [((run0.1.interrupts.getD 0 default).id, .str v),
                    (bogusId, .str "x")])
    run0.2.1 run0.2.2

/-- C7: a resume map holding an id not among the outstanding interrupts
makes the invocation report `unknownInterruptIds` naming exactly the
unmatched id, while the valid id in the same map is still applied: the
matched task completes (only the other interrupt remains, re-surfaced
unchanged) and the subsequent resume finishes the run with the first
task's resume value reflected in `processed`. -/
theorem unknown_resume_ids_reported_but_valid_ids_applied (v v2 : String) :
    (resumeWithBogus v).1.error = some (.unknownInterruptIds [bogusId]) ∧
    (resumeWithBogus v).1.interrupts = [run0.1.interrupts.getD 1 default] ∧
    (resumeNth (resumeWithBogus v) 0 v2).1.processed =
      ["processed_item1_auto", s!"processed_{v}", s!"processed_{v2}"] := by
  exact ⟨rfl, rfl, rfl⟩

/-- C9: `get_state` is a read-only accessor: it returns the thread's
pending interrupts together with an unchanged store, so querying twice with
no resume in between yields the identical interrupt list (same ids and
payloads) both times. -/
theorem get_state_requery_idempotent (s : Store) :
    (get_state (get_state s).2).1 = (get_state s).1 ∧ (get_state s).2 = s := by
  cases s <;> exact ⟨rfl, rfl⟩

/-- Any interrupt surfaced by a task run carries the task's identity as the
first component of its derived id. -/
theorem runTaskFrom_interrupted_tid (R : ResumeStore) (tid : String) :
    ∀ (occ : Nat) (body : TaskM α) (i : Interrupt),
      runTaskFrom R tid occ body = .interrupted i → i.id.1 = tid
  | _, .done _, _, h => by simp [runTaskFrom] at h
  | occ, .suspend p k, i, h => by
    rw [runTaskFrom] at h
    cases hl : R.lookup (tid, occ) with
    | some v =>
      rw [hl] at h
      exact runTaskFrom_interrupted_tid R tid (occ + 1) (k v) i h
    | none =>
      rw [hl] at h
      cases h
      rfl

/-- C1: interrupt ids are deterministically re-derived from the task
identity and the suspend call-site occurrence, never generated at random:
whenever two attempts at the same task — under any two resume stores, e.g.
a first attempt and a re-invocation that still supplies no value for that
site — block at the same call-site occurrence, they surface the same
interrupt id. -/
theorem interrupt_id_deterministically_rederived
    (R1 R2 : ResumeStore) (tid : String) (body : TaskM α) (i1 i2 : Interrupt)
    (h1 : runTask R1 tid body = .interrupted i1)
    (h2 : runTask R2 tid body = .interrupted i2)
    (hocc : i1.id.2 = i2.id.2) : i1.id = i2.id := by
  have a1 := runTaskFrom_interrupted_tid R1 tid 0 body i1 h1
  have a2 := runTaskFrom_interrupted_tid R2 tid 0 body i2 h2
  exact Prod.ext (a1.trans a2.symm) hocc

/-- Witness for C1 at a concrete task: `map_node "dangerous_item1"` run
twice, once with no resume values and once with a resume store holding only
an unrelated id, blocks with the same interrupt id both times. -/
theorem interrupt_id_deterministically_rederived_witness :
    (Interrupt.mk ("t", 0) (.dict [("processing", .str "dangerous_item1")])).id =
      (Interrupt.mk ("t", 0) (.dict [("processing", .str "dangerous_item1")])).id :=
  interrupt_id_deterministically_rederived [] [(("other", 5), .str "v")] "t"
    (map_node "dangerous_item1") _ _ rfl rfl rfl

/-- The interrupt record produced by a task of a frontier, if it suspends. -/
def taskInterrupt (R : ResumeStore) (t : String × TaskM (List String)) :
    Option Interrupt :=
  match runTask R t.1 t.2 with
  | .interrupted i => some i
  | .completed _ => none

theorem taskInterrupt_eq_some (R : ResumeStore)
    (t : String × TaskM (List String)) (i : Interrupt) :
    taskInterrupt R t = some i ↔ runTask R t.1 t.2 = .interrupted i := by
  unfold taskInterrupt
  cases runTask R t.1 t.2 <;> simp

theorem surfacedInterrupts_runFrontier (R : ResumeStore)
    (tasks : List (String × TaskM (List String))) :
    surfacedInterrupts (runFrontier R tasks) = tasks.filterMap (taskInterrupt R) := by
  rw [surfacedInterrupts, runFrontier, List.filterMap_map]
  rfl

/-- C5: after a superstep, the interrupts surfaced to the caller are exactly
the union of the interrupts raised by the tasks that suspended in that
frontier — every suspended task contributes its interrupt record and every
surfaced interrupt comes from a suspended task — and the surfaced set is
invariant (up to order) under any reordering of the frontier's tasks, i.e.
independent of the order in which tasks completed. -/
theorem surfaced_interrupts_are_union_of_suspended (R : ResumeStore)
    (tasks1 tasks2 : List (String × TaskM (List String)))
    (hperm : tasks1.Perm tasks2) :
    (surfacedInterrupts (runFrontier R tasks1)).Perm
      (surfacedInterrupts (runFrontier R tasks2)) ∧
    (∀ t ∈ tasks1, ∀ i, runTask R t.1 t.2 = .interrupted i →
      i ∈ surfacedInterrupts (runFrontier R tasks1)) ∧
    (∀ i ∈ surfacedInterrupts (runFrontier R tasks1),
      ∃ t ∈ tasks1, runTask R t.1 t.2 = .interrupted i) := by
  refine ⟨?_, ?_, ?_⟩
  · rw [surfacedInterrupts_runFrontier, surfacedInterrupts_runFrontier]
    exact hperm.filterMap (taskInterrupt R)
  · intro t ht i hi
    rw [surfacedInterrupts_runFrontier, List.mem_filterMap]
    exact ⟨t, ht, (taskInterrupt_eq_some R t i).mpr hi⟩
  · intro i hi
    rw [surfacedInterrupts_runFrontier, List.mem_filterMap] at hi
    obtain ⟨t, ht, hsome⟩ := hi
    exact ⟨t, ht, (taskInterrupt_eq_some R t i).mp hsome⟩

/-- Witness for C5 on a concrete two-task frontier and the swap
reordering. -/
theorem surfaced_interrupts_are_union_of_suspended_witness :
    (surfacedInterrupts (runFrontier []
        [("a", map_node "dangerous_a"), ("b", map_node "b1")])).Perm
      (surfacedInterrupts (runFrontier []
        [("b", map_node "b1"), ("a", map_node "dangerous_a")])) :=
  (surfaced_interrupts_are_union_of_suspended []
    [("a", map_node "dangerous_a"), ("b", map_node "b1")]
    [("b", map_node "b1"), ("a", map_node "dangerous_a")]
    (List.Perm.swap _ _ _)).1

/-- Whether a resume step re-invokes a checkpointed task: only interrupted
tasks whose pending interrupt id is supplied a value in the resume map. -/
def isReinvoked (resumeMap : ResumeStore) (t : SavedTask) : Bool :=
  match t.status with
  | .interrupted i => (resumeMap.lookup i.id).isSome
  | .completed _ => false

theorem resumeTask_rerun_count (rm ns : ResumeStore) :
    ∀ tasks : List SavedTask,
      ((tasks.map (resumeTask rm ns)).map (·.2)).sum =
        (tasks.filter (isReinvoked rm)).length
  | [] => rfl
  | ⟨tid, input, .completed w⟩ :: ts => by
    have ih := resumeTask_rerun_count rm ns ts
    rw [List.map_map] at ih
    simp [resumeTask, isReinvoked, List.filter_cons, ih]
  | ⟨tid, input, .interrupted i⟩ :: ts => by
    have ih := resumeTask_rerun_count rm ns ts
    rw [List.map_map] at ih
    cases hl : (rm.lookup i.id).isSome with
    | true =>
      simp [resumeTask, isReinvoked, List.filter_cons, hl, ih, Nat.add_comm]
    | false =>
      simp [resumeTask, isReinvoked, List.filter_cons, hl, ih]

theorem invokeResume_counters (resumeMap : ResumeStore) (cp : Checkpoint)
    (c : Counters) :
    (invokeResume resumeMap (some cp) c).2.2 =
      ⟨c.entry, c.map + (cp.tasks.filter (isReinvoked resumeMap)).length⟩ := by
  rw [← resumeTask_rerun_count resumeMap (cp.resumeStore ++ resumeMap) cp.tasks]
  simp only [invokeResume]
  split <;> rfl

/-- Counterexample to C3 as stated: the sequential-resume scenario's first
checkpoint records N = 1 completed and M = 2 interrupted tasks, yet the
first resume call (supplying a value for only one interrupt id) re-invokes
exactly 1 task body, not M = 2 — the execution counter moves from 3 to 4,
matching the test suite's asserted total of 5 map-node executions. -/
theorem resume_reinvokes_only_resumed_tasks_cex :
    (run0.2.1.getD ⟨[], []⟩).tasks.length = 3 ∧
    (pendingInterrupts (run0.2.1.getD ⟨[], []⟩).tasks).length = 2 ∧
    run0.2.2.map = 3 ∧
    (resumeNth run0 0 "v1").2.2.map = 4 := by
  exact ⟨rfl, rfl, rfl, rfl⟩

/-- C3 (amended): resuming from a checkpoint re-invokes exactly the
interrupted task bodies whose pending interrupt id is supplied a resume
value — all M interrupted tasks when every outstanding id is supplied, and
never any completed task body, whose checkpointed writes are kept verbatim;
the entry node still executes exactly once across the whole scenario. -/
theorem resume_reinvokes_exactly_supplied_interrupted_tasks
    (cp : Checkpoint) (resumeMap : ResumeStore) (c : Counters) :
    (invokeResume resumeMap (some cp) c).2.2.entry = c.entry ∧
    (invokeResume resumeMap (some cp) c).2.2.map =
      c.map + (cp.tasks.filter (isReinvoked resumeMap)).length ∧
    (∀ t ∈ cp.tasks, ∀ w, t.status = .completed w →
      resumeTask resumeMap (cp.resumeStore ++ resumeMap) t = (t, 0)) ∧
    (resumeBoth run0 "a" "b").2.2.entry = 1 ∧
    (resumeNth (resumeNth run0 0 "a") 0 "b").2.2.entry = 1 := by
  refine ⟨?_, ?_, ?_, rfl, rfl⟩
  · rw [invokeResume_counters]
  · rw [invokeResume_counters]
  · intro t _ w hw
    simp [resumeTask, hw]

/-- Witness for C3 (amended) at the scenario's first checkpoint, resuming
one of its two interrupt ids. -/
theorem resume_reinvokes_exactly_supplied_interrupted_tasks_witness :
    (invokeResume [(("map_node:1", 0), .str "v1")]
        (some (run0.2.1.getD ⟨[], []⟩)) run0.2.2).2.2.entry = run0.2.2.entry ∧
    (invokeResume [(("map_node:1", 0), .str "v1")]
        (some (run0.2.1.getD ⟨[], []⟩)) run0.2.2).2.2.map =
      run0.2.2.map + ((run0.2.1.getD ⟨[], []⟩).tasks.filter
        (isReinvoked [(("map_node:1", 0), .str "v1")])).length ∧
    (∀ t ∈ (run0.2.1.getD ⟨[], []⟩).tasks, ∀ w, t.status = .completed w →
      resumeTask [(("map_node:1", 0), .str "v1")]
        ((run0.2.1.getD ⟨[], []⟩).resumeStore ++ [(("map_node:1", 0), .str "v1")]) t =
        (t, 0)) ∧
    (resumeBoth run0 "a" "b").2.2.entry = 1 ∧
    (resumeNth (resumeNth run0 0 "a") 0 "b").2.2.entry = 1 :=
  resume_reinvokes_exactly_supplied_interrupted_tasks
    (run0.2.1.getD ⟨[], []⟩) [(("map_node:1", 0), .str "v1")] run0.2.2

/-- C8: each of the two tools calls the suspend primitive exactly once with
its dumped `HumanInterrupt` request — a serializable dict of the shape
`\x7bid, action_request:\x7baction, args\x7d, config:\x7ballow_ignore,
allow_respond, allow_edit, allow_accept\x7d, description\x7d` — blocking
with that payload when no resume value is supplied, and, once a resume
value is supplied for that interrupt, `suspend` returns it: the tool
completes with its response handler applied to exactly that value. -/
theorem tools_suspend_serializable_payload_and_return_resume_value
    (interrupt_id data mode tid : String) :
    runTask [] tid (fast_analysis_tool interrupt_id data) =
      .interrupted ⟨(tid, 0), (fastRequest interrupt_id data).model_dump⟩ ∧
    isHumanInterruptShape (fastRequest interrupt_id data).model_dump = true ∧
    (∀ v, runTask [((tid, 0), v)] tid (fast_analysis_tool interrupt_id data) =
      .completed (fastHandleResponse data v)) ∧
    runTask [] tid (slow_processing_tool interrupt_id data mode) =
      .interrupted ⟨(tid, 0), (slowRequest interrupt_id data mode).model_dump⟩ ∧
    isHumanInterruptShape (slowRequest interrupt_id data mode).model_dump = true ∧
    (∀ v, runTask [((tid, 0), v)] tid (slow_processing_tool interrupt_id data mode) =
      .completed (slowHandleResponse data mode v)) := by
  refine ⟨rfl, rfl, ?_, rfl, rfl, ?_⟩
  · intro v
    simp [runTask, fast_analysis_tool, runTaskFrom, List.lookup]
  · intro v
    simp [runTask, slow_processing_tool, runTaskFrom, List.lookup]

/-- Whether a resume value is a dict whose `"type"` entry (defaulting to
`"accept"` when absent) equals the string `"ignore"`. -/
def isIgnoreResponse : Value → Bool
  | .dict kvs => lookupD kvs "type" (.str "accept") == .str "ignore"
  | _ => false

/-- Whether a resume value is a dict whose `"type"` entry (defaulting to
`"accept"` when absent) equals the string `"edit"`. -/
def isEditResponse : Value → Bool
  | .dict kvs => lookupD kvs "type" (.str "accept") == .str "edit"
  | _ => false

/-- C10: `fast_analysis_tool` returns the cancelled-result string if and
only if the resume value is a dict whose `"type"` is `"ignore"`; every
other value — non-dict, dict with no `"type"` key, or any other kind,
including kinds its `HumanInterruptConfig` disallows such as `"response"` —
yields the approved-result string.  `slow_processing_tool` additionally
handles `"edit"` by taking the mode from `response["args"]["mode"]`
(defaulting to the original mode when absent) and otherwise behaves the
same.  Neither handler consults the config's allowed-actions flags. -/
theorem tool_response_handling_never_validates_config
    (data mode m c : String) (response : Value) :
    (fastHandleResponse data response =
      if isIgnoreResponse response then s!"Fast analysis cancelled for: {data}"
      else s!"Fast analysis completed: {data} - Decision: approved") ∧
    (fastHandleResponse data response = s!"Fast analysis cancelled for: {data}" ↔
      isIgnoreResponse response = true) ∧
    (isIgnoreResponse response = true →
      slowHandleResponse data mode response =
        .ok s!"Slow processing cancelled for: {data}") ∧
    (isIgnoreResponse response = false → isEditResponse response = false →
      slowHandleResponse data mode response =
        .ok s!"Slow processing completed: {data} ({mode}) - Decision: approved") ∧
    (slowHandleResponse data mode
        (.dict [("type", .str "edit"), ("args", .dict [("mode", .str m)])]) =
      .ok s!"Slow processing completed: {data} ({m}) - Decision: modified") ∧
    (slowHandleResponse data mode (.dict [("type", .str "edit")]) =
      .ok s!"Slow processing completed: {data} ({mode}) - Decision: modified") ∧
    (slowHandleResponse data mode
        (.dict [("type", .str "edit"), ("args", .dict [])]) =
      .ok s!"Slow processing completed: {data} ({mode}) - Decision: modified") ∧
    (fastHandleResponse data
        (.dict [("type", .str "response"), ("content", .str c)]) =
      s!"Fast analysis completed: {data} - Decision: approved") ∧
    (slowHandleResponse data mode
        (.dict [("type", .str "response"), ("content", .str c)]) =
      .ok s!"Slow processing completed: {data} ({mode}) - Decision: approved") := by
  have hne : s!"Fast analysis completed: {data} - Decision: approved" ≠
      s!"Fast analysis cancelled for: {data}" := by
    intro h
    have h2 := congrArg String.length h
    simp only [String.length_append, toString] at h2
    have e1 : ("Fast analysis cancelled for: " : String).length = 29 := by decide
    have e2 : ("" : String).length = 0 := by decide
    have e3 : ("Fast analysis completed: " : String).length = 25 := by decide
    have e4 : (" - Decision: approved" : String).length = 21 := by decide
    rw [e1, e2, e3, e4] at h2
    omega
  have hfast : fastHandleResponse data response =
      if isIgnoreResponse response then s!"Fast analysis cancelled for: {data}"
      else s!"Fast analysis completed: {data} - Decision: approved" := by
    cases response <;> rfl
  refine ⟨hfast, ?_, ?_, ?_, rfl, rfl, rfl, rfl, rfl⟩
  · rw [hfast]
    cases hig : isIgnoreResponse response with
    | true => simp
    | false => simp [hne]
  · intro hig
    cases response with
    | dict kvs =>
      simp only [isIgnoreResponse] at hig
      simp only [slowHandleResponse]
      rw [if_pos hig]
    | str s => simp [isIgnoreResponse] at hig
    | bool b => simp [isIgnoreResponse] at hig
  · intro hig hed
    cases response with
    | dict kvs =>
      simp only [isIgnoreResponse] at hig
      simp only [isEditResponse] at hed
      simp only [slowHandleResponse]
      rw [if_neg (by simp [hig]), if_neg (by simp [hed])]
    | str s => rfl
    | bool b => rfl

/-- Witness for C10: an `\x7b"type": "ignore"\x7d` resume value does satisfy
the ignore condition, and `slow_processing_tool`'s handler cancels on it. -/
theorem tool_response_handling_never_validates_config_witness :
    isIgnoreResponse (.dict [("type", .str "ignore")]) = true ∧
    slowHandleResponse "d" "full" (.dict [("type", .str "ignore")]) =
      .ok "Slow processing cancelled for: d" :=
  ⟨by decide,
   (tool_response_handling_never_validates_config "d" "full" "q" "cc"
      (.dict [("type", .str "ignore")])).2.2.1 (by decide)⟩

end ConcurrentInterrupts
